import Mathlib

/-!
Verification of the TrendRadar content transformation and multi-channel
formatting pipeline.  The Python sources are shallowly embedded:

* news items (Python dicts) become association lists `List (String × String)`;
* `AIProcessor` (src/trendradar/ai/processor.py) becomes the structure
  `AIProc` together with the functions `process_news_item`,
  `process_news_list`, `categorize_news`, `format_for_video` and the
  three generators;
* `prepare_report_data` (src/trendradar/report/generator.py) becomes
  `prepare_report_data` over explicit record types;
* `strip_markdown` (src/trendradar/notification/formatters.py) becomes a
  sequence of character-list scanners, one per regex substitution pass,
  with Python regex semantics (leftmost match, non-greedy where the
  source pattern is non-greedy, MULTILINE anchors tracked by a
  beginning-of-line flag).  The ASCII whitespace class models
  Python whitespace; non-ASCII whitespace is not modelled.
-/

/-! ## Character-list utilities -/

/-- Does `pat` occur at the head of `s`? -/
def lstarts : List Char → List Char → Bool
  | [], _ => true
  | _ :: _, [] => false
  | p :: ps, c :: cs => p == c && lstarts ps cs

/-- Does `pat` occur as a contiguous sublist of `l`?  This is the model of
the Python substring test used both by `keyword in text` and by concrete
string checks in theorems. -/
def hasSubL : List Char → List Char → Bool
  | [], pat => pat.isEmpty
  | c :: cs, pat => lstarts pat (c :: cs) || hasSubL cs pat

/-- Python substring containment on strings. -/
def hasSub (s pat : String) : Bool := hasSubL s.data pat.data

/-- `c` does not occur in `l`. -/
def charFree (c : Char) (l : List Char) : Bool := l.all (fun x => !(x == c))

/-- ASCII whitespace as matched by the source regexes. -/
def isPySpace (c : Char) : Bool :=
  c == ' ' || c == '\t' || c == '\n' || c == '\r' || c == Char.ofNat 11 || c == Char.ofNat 12

/-! ## Python-dict model -/

/-- Lookup in an association list; model of Python `d[k]` / `d.get(k)`. -/
def dget : List (String × α) → String → Option α
  | [], _ => none
  | (k, v) :: r, key => if key = k then some v else dget r key

/-- Model of Python dict assignment `d[k] = v`: the value of an existing
key is replaced in place, a new key is appended. -/
def setK : List (String × α) → String → α → List (String × α)
  | [], k, v => [(k, v)]
  | (k0, v0) :: r, k, v => if k0 = k then (k, v) :: r else (k0, v0) :: setK r k v

/-- A news item: a Python dict with string keys and string values. -/
abbrev Item := List (String × String)

/-- Python `a or b` on strings: empty strings are falsy. -/
def pyOrS (a b : String) : String := if a = "" then b else a

/-- Python `d.get(k) or b`: a missing key or an empty value falls back. -/
def pyOrOpt (a : Option String) (b : String) : String :=
  match a with
  | some s => if s = "" then b else s
  | none => b

/-! ## Categorizer (AIProcessor.categorize_news, processor.py lines 116-152) -/

def techKeywords : List String :=
  ["AI", "人工智能", "机器学习", "大模型", "科技", "创业", "投资", "开源", "程序员", "算法"]

def gameKeywords : List String :=
  ["游戏", "电竞", "Steam", "直播", "娱乐", "DOTA", "LOL", "王者", "原神", "米哈游"]

def hardwareKeywords : List String :=
  ["芯片", "GPU", "CPU", "手机", "iPhone", "华为", "小米", "硬件", "数码", "平板"]

/-- The text an item is matched against:
`(item.get("ai_title") or item.get("title", "")) + " " + (item.get("ai_summary") or item.get("content", ""))`. -/
def matchText (it : Item) : String :=
  pyOrOpt (dget it "ai_title") ((dget it "title").getD "") ++ " " ++
    pyOrOpt (dget it "ai_summary") ((dget it "content").getD "")

/-- `any(keyword in text for keyword in kws)`. -/
def kwMatch (kws : List String) (text : String) : Bool :=
  kws.any (fun k => hasSub text k)

/-- The three fixed buckets. -/
inductive Cat where
  | tech
  | game
  | hw
deriving DecidableEq

/-- The if/elif/else chain of categorize_news: tech keywords first, then
gaming, then hardware, with tech as the default bucket. -/
def classifyCat (it : Item) : Cat :=
  if kwMatch techKeywords (matchText it) then Cat.tech
  else if kwMatch gameKeywords (matchText it) then Cat.game
  else if kwMatch hardwareKeywords (matchText it) then Cat.hw
  else Cat.tech

/-- The loop of categorize_news: each item is appended to the single
bucket selected by the keyword chain, preserving input order. -/
def categorizeLists : List Item → List Item × List Item × List Item
  | [] => ([], [], [])
  | it :: rest =>
    let r := categorizeLists rest
    match classifyCat it with
    | Cat.tech => (it :: r.1, r.2.1, r.2.2)
    | Cat.game => (r.1, it :: r.2.1, r.2.2)
    | Cat.hw => (r.1, r.2.1, it :: r.2.2)

/-- A categorized mapping: a Python dict from category name to item list. -/
abbrev CatDict := List (String × List Item)

/-- AIProcessor.categorize_news: returns the dict with the three fixed
keys 科技AI / 游戏娱乐 / 硬件数码. -/
def categorize_news (l : List Item) : CatDict :=
  [("科技AI", (categorizeLists l).1),
   ("游戏娱乐", (categorizeLists l).2.1),
   ("硬件数码", (categorizeLists l).2.2)]

/-! ## Content enricher (AIProcessor.process_news_item / process_news_list) -/

/-- The external text-generation client: each operation may fail
(an exception in the source is modelled as `none`). -/
structure Client where
  genTitle : String → String → Nat → Option String
  genSummary : String → String → Nat → Option String
  genTag : String → String → Option String

/-- The state of an AIProcessor after `__init__`: `enabled` reflects the
config flag combined with successful client construction. -/
structure AIProc where
  enabled : Bool
  client : Option Client
  summaryLength : Nat
  titleLength : Nat
  videoFormat : Bool
  generateScript : Bool
  generateStoryboard : Bool

/-- `processed_item.update({...})` with the three ai fields and the
original title. -/
def applyEnrich (it : Item) (t s g : String) : Item :=
  setK (setK (setK (setK it "ai_title" t) "ai_summary" s) "ai_tag" g)
    "original_title" ((dget it "title").getD "")

/-- AIProcessor.process_news_item: returns the item unchanged when
disabled, the client is missing, or any of the three generation calls
fails; otherwise a copy extended with all three ai fields. -/
def process_news_item (p : AIProc) (it : Item) : Item :=
  match p.client with
  | none => it
  | some c =>
    if p.enabled then
      let title := (dget it "title").getD ""
      let content := pyOrS ((dget it "content").getD "") ((dget it "description").getD "")
      match c.genTitle content title p.titleLength,
            c.genSummary content title p.summaryLength,
            c.genTag content title with
      | some t, some s, some g => applyEnrich it t s g
      | _, _, _ => it
    else it

/-- AIProcessor.process_news_list: the whole list is returned unchanged
when disabled, otherwise each item is processed independently. -/
def process_news_list (p : AIProc) (l : List Item) : List Item :=
  if p.enabled then l.map (process_news_item p) else l

/-! ## Multi-format renderer (processor.py lines 154-308)

The renderers iterate the fixed list ["科技AI类", "游戏娱乐类", "硬件数码类"]
(the loop over `category_order` is unrolled, the list having exactly three
fixed elements). -/

/-- The 74-character full-width separator line used by the source. -/
def sepLine : String :=
  "━━━━━━━━━━━━━━━━━━━━━━━━━━━━━━━━━━━━━━━━━━━━━━━━━━━━━━━━━━━━━━━━━━━━━━━━━━"

/-- One enumerated block of the basic listing (1-based index `i`). -/
def basicItemBlock (i : Nat) (it : Item) : String :=
  let title := (dget it "ai_title").getD ((dget it "title").getD "")
  let summary := (dget it "ai_summary").getD ""
  let tag := (dget it "ai_tag").getD ""
  let url := (dget it "url").getD ""
  Nat.repr i ++ ". " ++ title ++ "\n" ++
    (if summary = "" then "" else "   " ++ summary ++ "\n") ++
    (if tag = "" then "" else "   标签: " ++ tag ++ "\n") ++
    (if url = "" then "" else "   链接: " ++ url ++ "\n") ++ "\n"

/-- `for i, news in enumerate(bucket, 1)` rendered with block function `f`. -/
def enumBlocks (f : Nat → Item → String) : Nat → List Item → String
  | _, [] => ""
  | i, it :: rest => f i it ++ enumBlocks f (i + 1) rest

/-- One bucket of the basic listing; nothing is emitted when the key is
absent from the dict or its list is empty. -/
def basicBucket (d : CatDict) (cat : String) : String :=
  match dget d cat with
  | some l => if l.isEmpty then "" else "🔸 " ++ cat ++ "\n" ++ enumBlocks basicItemBlock 1 l ++ "\n"
  | none => ""

/-- AIProcessor._generate_basic_format. -/
def generate_basic_format (d : CatDict) : String :=
  "📺 今日科技热点播报\n\n" ++
    basicBucket d "科技AI类" ++ basicBucket d "游戏娱乐类" ++ basicBucket d "硬件数码类"

/-- The fixed introductory sentence of each script bucket. -/
def categoryIntro (cat : String) : String :=
  if cat = "科技AI类" then "首先，让我们关注人工智能和科技创新领域的最新动态。"
  else if cat = "游戏娱乐类" then "接下来，我们来看看游戏娱乐行业的热门资讯。"
  else if cat = "硬件数码类" then "最后，让我们了解一下硬件数码市场的最新消息。"
  else ""

/-- One narrated item of the video script. -/
def scriptItemBlock (i : Nat) (it : Item) : String :=
  let title := (dget it "ai_title").getD ((dget it "title").getD "")
  let summary := (dget it "ai_summary").getD ""
  "第" ++ Nat.repr i ++ "条新闻：" ++ title ++ "\n" ++
    (if summary = "" then "" else summary ++ "\n") ++ "\n"

/-- One bucket of the video script. -/
def scriptBucket (d : CatDict) (cat : String) : String :=
  match dget d cat with
  | some l =>
    if l.isEmpty then ""
    else "【" ++ cat ++ "】\n" ++ categoryIntro cat ++ "\n\n" ++
      enumBlocks scriptItemBlock 1 l ++ sepLine ++ "\n\n"
  | none => ""

/-- AIProcessor._generate_video_script. -/
def generate_video_script (d : CatDict) : String :=
  "🎬 视频播报稿\n\n" ++
    "大家好，欢迎收看今日科技热点播报。我是您的AI主播，为您带来最新的科技资讯。\n\n" ++
    scriptBucket d "科技AI类" ++ scriptBucket d "游戏娱乐类" ++ scriptBucket d "硬件数码类" ++
    "以上就是今日的科技热点播报，感谢您的收看，我们明天同一时间再见！\n"

/-- Zero-padded two-digit rendering of the seconds part, Python `:02d`. -/
def pad2 (n : Nat) : String := if n < 10 then "0" ++ Nat.repr n else Nat.repr n

/-- `minutes:seconds` rendering of a time offset. -/
def fmtTime (n : Nat) : String := Nat.repr (n / 60) ++ ":" ++ pad2 (n % 60)

/-- The bucket-specific fixed visual description (`category_visuals`). -/
def categoryVisual (cat : String) : String :=
  if cat = "科技AI类" then "AI芯片、机器人、代码界面等科技元素"
  else if cat = "游戏娱乐类" then "游戏画面、手柄、电竞场景等娱乐元素"
  else if cat = "硬件数码类" then "手机、电脑、芯片等硬件产品"
  else ""

/-- One storyboard shot for a non-empty bucket. -/
def sbShot (idx : Nat) (cat : String) (st en cnt : Nat) : String :=
  "【镜头" ++ Nat.repr idx ++ "】" ++ cat ++ " (" ++ fmtTime st ++ "-" ++ fmtTime en ++ ")\n" ++
    "画面：" ++ categoryVisual cat ++ "\n" ++
    "内容：播报" ++ Nat.repr cnt ++ "条" ++ cat ++ "新闻\n" ++
    "转场：滑动切换\n\n"

/-- One iteration of the storyboard loop: a bucket that is absent or
empty contributes no text and no time. -/
def sbStep (d : CatDict) (idx : Nat) (cat : String) (acc : String × Nat) : String × Nat :=
  match dget d cat with
  | some l =>
    if l.isEmpty then acc
    else
      let dur := min 30 (l.length * 8)
      (acc.1 ++ sbShot idx cat acc.2 (acc.2 + dur) l.length, acc.2 + dur)
  | none => acc

/-- The storyboard loop over the three fixed categories, shot indices
starting at 2 and the running offset starting at 5 (the opening ends). -/
def sbLoop (d : CatDict) : String × Nat :=
  sbStep d 4 "硬件数码类" (sbStep d 3 "游戏娱乐类" (sbStep d 2 "科技AI类" ("", 5)))

/-- The fixed 5-second opening shot. -/
def sbIntro : String :=
  "🎥 分镜脚本\n\n" ++
    "【镜头1】开场 (0:00-0:05)\n" ++
    "画面：主播正面特写，背景为科技感十足的虚拟演播室\n" ++
    "文案：大家好，欢迎收看今日科技热点播报\n" ++
    "转场：淡入淡出\n\n"

/-- AIProcessor._generate_storyboard. -/
def generate_storyboard (d : CatDict) : String :=
  let r := sbLoop d
  sbIntro ++ r.1 ++
    "【镜头5】结尾 (" ++ fmtTime r.2 ++ "-" ++ fmtTime (r.2 + 5) ++ ")\n" ++
    "画面：主播挥手告别，显示订阅提醒\n" ++
    "文案：感谢收看，明天同一时间再见\n" ++
    "转场：淡出\n\n" ++
    "总时长：约" ++ Nat.repr ((r.2 + 5) / 60) ++ "分" ++ pad2 ((r.2 + 5) % 60) ++ "秒\n"

/-- The reported cumulative duration (`end_end` in the source). -/
def sbEndEnd (d : CatDict) : Nat := (sbLoop d).2 + 5

/-- AIProcessor._combine_all_formats: the basic listing always comes
first; each further requested block is preceded by the separator. -/
def combine_all_formats (basic : String) (script sb : Option String) : String :=
  basic ++ "\n" ++
    (match script with
     | some s => sepLine ++ "\n\n" ++ s ++ "\n"
     | none => "") ++
    (match sb with
     | some s => sepLine ++ "\n\n" ++ s
     | none => "")

/-- AIProcessor.format_for_video: the sentinel is returned exactly when
the dict itself is falsy (empty); the script and storyboard blocks obey
the processor flags. -/
def format_for_video (p : AIProc) (d : CatDict) : String :=
  match d with
  | [] => "暂无新闻内容"
  | _ :: _ =>
    combine_all_formats (generate_basic_format d)
      (if p.generateScript then some (generate_video_script d) else none)
      (if p.generateStoryboard then some (generate_storyboard d) else none)

/-! ## Report data assembler (report/generator.py, prepare_report_data) -/

/-- An entry of `stat["titles"]` in the input statistics. -/
structure TitleData where
  title : String
  source_name : String
  time_display : String
  count : Nat
  ranks : List Nat
  rank_threshold : Nat
  url : String
  mobileUrl : String
  is_new : Bool
deriving DecidableEq

/-- An input statistics entry; `count` may be non-positive and is then
dropped by the assembler. -/
structure Stat where
  word : String
  count : Int
  percentage : Nat
  titles : List TitleData
deriving DecidableEq

/-- A processed title as written by prepare_report_data. -/
structure ProcTitle where
  title : String
  source_name : String
  time_display : String
  count : Nat
  ranks : List Nat
  rank_threshold : Nat
  url : String
  mobile_url : String
  is_new : Bool
deriving DecidableEq

/-- A processed statistics entry. -/
structure ProcStat where
  word : String
  count : Int
  percentage : Nat
  titles : List ProcTitle
deriving DecidableEq

/-- A per-source group of freshly appeared titles in the payload. -/
structure SourceGroup where
  source_id : String
  source_name : String
  titles : List ProcTitle
deriving DecidableEq

/-- The value stored under a title in the `new_titles` input dict. -/
structure NewInfo where
  url : String
  mobileUrl : String
  ranks : List Nat
deriving DecidableEq

/-- The assembled report payload; the three ai fields are present only on
the enrichment path. -/
structure Payload where
  stats : List ProcStat
  new_titles : List SourceGroup
  failed_ids : List String
  total_new_count : Nat
  ai_processed : Option Bool
  ai_content : Option String
  ai_categories : Option CatDict

/-- The `new_titles` input: a dict source id → (dict title → info). -/
abbrev NewTitles := List (String × List (String × NewInfo))

/-- The processed title built for a freshly appeared title
(generator.py lines 107-123). -/
def mkNewProcTitle (title sname : String) (info : NewInfo) (rt : Nat) : ProcTitle :=
  { title := title, source_name := sname, time_display := "", count := 1,
    ranks := info.ranks, rank_threshold := rt, url := info.url,
    mobile_url := info.mobileUrl, is_new := true }

/-- Lines 73-132 of generator.py: the construction of
`processed_new_titles`.  In incremental mode the section is suppressed;
otherwise the titles pass through the optional filter predicate, and only
truthy (non-empty) dicts and groups survive. -/
def processedNewTitlesOf (nt : NewTitles) (idn : Option (List (String × String)))
    (mode : String) (fp : Option (String → Bool)) (rt : Nat) : List SourceGroup :=
  if mode = "incremental" then []
  else
    let truthyIdn := match idn with
      | some m => !m.isEmpty
      | none => false
    let filtered : NewTitles :=
      if !nt.isEmpty && truthyIdn then
        match fp with
        | some p =>
          nt.filterMap (fun pr =>
            let ft := pr.2.filter (fun t => p t.1)
            if ft.isEmpty then none else some (pr.1, ft))
        | none => nt
      else []
    if !filtered.isEmpty && truthyIdn then
      let m := idn.getD []
      filtered.filterMap (fun pr =>
        let sname := (dget m pr.1).getD pr.1
        let stitles := pr.2.map (fun t => mkNewProcTitle t.1 sname t.2 rt)
        if stitles.isEmpty then none
        else some { source_id := pr.1, source_name := sname, titles := stitles })
    else []

/-- Lines 134-161: stats processing; entries with `count <= 0` are
dropped and every title is copied field by field. -/
def processedStatsOf (stats : List Stat) : List ProcStat :=
  stats.filterMap (fun st =>
    if st.count ≤ 0 then none
    else some
      { word := st.word, count := st.count, percentage := st.percentage,
        titles := st.titles.map (fun td =>
          { title := td.title, source_name := td.source_name,
            time_display := td.time_display, count := td.count,
            ranks := td.ranks, rank_threshold := td.rank_threshold,
            url := td.url, mobile_url := td.mobileUrl, is_new := td.is_new }) })

/-- Lines 167-192: every title of the processed stats and of the
processed new-title groups becomes one flat news item; processed titles
carry no content field, so content is always empty. -/
def collectNews (ps : List ProcStat) (pn : List SourceGroup) : List Item :=
  (ps.map (fun st => st.titles.map (fun t =>
    [("title", t.title), ("content", ""), ("url", t.url),
     ("source", t.source_name), ("keyword", st.word)]))).flatten ++
  (pn.map (fun src => src.titles.map (fun t =>
    [("title", t.title), ("content", ""), ("url", t.url),
     ("source", t.source_name), ("keyword", "新增热点")]))).flatten

/-- prepare_report_data (generator.py lines 24-224).  The AI-enhanced
payload is returned only when a processor is available and enabled, at
least one news item was collected, and the video-format option is on;
every other path returns the standard payload. -/
def prepare_report_data (stats : List Stat) (failed_ids : Option (List String))
    (nt : NewTitles) (idn : Option (List (String × String))) (mode : String)
    (rt : Nat) (fp : Option (String → Bool)) (ai : Option AIProc) : Payload :=
  let pn := processedNewTitlesOf nt idn mode fp rt
  let ps := processedStatsOf stats
  let base : Payload :=
    { stats := ps, new_titles := pn, failed_ids := failed_ids.getD [],
      total_new_count := (pn.map (fun g => g.titles.length)).sum,
      ai_processed := none, ai_content := none, ai_categories := none }
  match ai with
  | none => base
  | some p =>
    if p.enabled then
      let allNews := collectNews ps pn
      if allNews.isEmpty then base
      else
        let catd := categorize_news (process_news_list p allNews)
        if p.videoFormat then
          { base with
              ai_processed := some true,
              ai_content := some (format_for_video p catd),
              ai_categories := some catd }
        else base
    else base

/-! ## Markup adapter (notification/formatters.py, strip_markdown)

Each `re.sub` pass becomes one scanner over the character list.  The
scanners implement leftmost matching: at every position a match of the
pattern is attempted and on failure one character is copied.  Non-greedy
`(.+?)` groups are matched by `seekClose`: at least one character, no
newline (`.` does not match a newline), stopping at the first occurrence
of the closing delimiter.  MULTILINE `^` is tracked by a
beginning-of-line flag. -/

/-- The backquote character (inline-code delimiter). -/
def backquote : Char := Char.ofNat 96

/-- Scan for the closing delimiter of a non-greedy `(.+?)` group:
`acc` holds the (reversed) content consumed so far. -/
def seekCloseGo (close : List Char) : List Char → List Char → Option (List Char × List Char)
  | acc, [] => if lstarts close [] then some (acc.reverse, []) else none
  | acc, c :: cs =>
    if lstarts close (c :: cs) then some (acc.reverse, (c :: cs).drop close.length)
    else if c == '\n' then none
    else seekCloseGo close (c :: acc) cs

/-- Split `s` as the minimal non-empty newline-free content followed by
`close`, returning the content and the rest after the delimiter. -/
def seekClose (close : List Char) : List Char → Option (List Char × List Char)
  | [] => none
  | c :: cs => if c == '\n' then none else seekCloseGo close [c] cs

/-- One delimiter-pair substitution pass, e.g. bold with
`op = cl = "**"`: a matched pair is replaced by its content.  The fuel is
the input length; every step consumes at least one character. -/
def pairSubF (op cl : List Char) : Nat → List Char → List Char
  | 0, s => s
  | _ + 1, [] => []
  | f + 1, c :: cs =>
    if lstarts op (c :: cs) then
      match seekClose cl ((c :: cs).drop op.length) with
      | some (content, rest) => content ++ pairSubF op cl f rest
      | none => c :: pairSubF op cl f cs
    else c :: pairSubF op cl f cs

/-- The link pass: the pattern with the two greedy negated classes
matches `[text](url)` deterministically (the classes cannot contain
their closing bracket), and the replacement keeps the url after a
space. -/
def linkSubF : Nat → List Char → List Char
  | 0, s => s
  | _ + 1, [] => []
  | f + 1, c :: cs =>
    if c == '[' then
      let a := cs.takeWhile (fun x => !(x == ']'))
      let r1 := cs.drop a.length
      match a, r1 with
      | _ :: _, ']' :: '(' :: cs2 =>
        let b := cs2.takeWhile (fun x => !(x == ')'))
        let r2 := cs2.drop b.length
        match b, r2 with
        | _ :: _, ')' :: rest => a ++ ' ' :: (b ++ linkSubF f rest)
        | _, _ => c :: linkSubF f cs
      | _, _ => c :: linkSubF f cs
    else c :: linkSubF f cs

/-- Alt-text search for the image pass: extend the non-greedy alt text
until a position where the image pattern can complete. -/
def imgGo : Nat → List Char → List Char → Option (List Char × List Char)
  | 0, _, _ => none
  | f + 1, acc, t =>
    if !acc.isEmpty && lstarts [']', '('] t then
      match seekClose [')'] (t.drop 2) with
      | some (_, rest) => some (acc.reverse, rest)
      | none =>
        match t with
        | [] => none
        | c :: cs => if c == '\n' then none else imgGo f (c :: acc) cs
    else
      match t with
      | [] => none
      | c :: cs => if c == '\n' then none else imgGo f (c :: acc) cs

/-- The image pass: a match is replaced by the alt text alone. -/
def imageSubF : Nat → List Char → List Char
  | 0, s => s
  | _ + 1, [] => []
  | f + 1, c :: cs =>
    if c == '!' && lstarts ['['] cs then
      match imgGo cs.length [] (cs.drop 1) with
      | some (alt, rest) => alt ++ imageSubF f rest
      | none => c :: imageSubF f cs
    else c :: imageSubF f cs

/-- The block-quote pass: at a line start, a quote marker and all
following whitespace (newlines included) are removed. -/
def quoteSubF : Nat → Bool → List Char → List Char
  | 0, _, s => s
  | _ + 1, _, [] => []
  | f + 1, bol, c :: cs =>
    if bol && c == '>' then
      let run := cs.takeWhile isPySpace
      let nb := match run.getLast? with
        | some l => l == '\n'
        | none => false
      quoteSubF f nb (cs.drop run.length)
    else c :: quoteSubF f (c == '\n') cs

/-- The heading pass: at a line start, the heading markers and all
following whitespace are removed. -/
def headSubF : Nat → Bool → List Char → List Char
  | 0, _, s => s
  | _ + 1, _, [] => []
  | f + 1, bol, c :: cs =>
    if bol && c == '#' then
      let hrun := cs.takeWhile (fun x => x == '#')
      let cs2 := cs.drop hrun.length
      let wrun := cs2.takeWhile isPySpace
      let nb := match wrun.getLast? with
        | some l => l == '\n'
        | none => false
      headSubF f nb (cs2.drop wrun.length)
    else c :: headSubF f (c == '\n') cs

/-- A horizontal-rule character. -/
def isHrChar (c : Char) : Bool := c == '-' || c == '*'

/-- Split a whitespace run at its last newline (the backtracking point of
the end-of-line anchor after a greedy whitespace group). -/
def lastNlSplit : List Char → Option (List Char × List Char)
  | [] => none
  | c :: cs =>
    match lastNlSplit cs with
    | some (w, t) => some (c :: w, t)
    | none => if c == '\n' then some ([], cs) else none

/-- The horizontal-rule pass: at a line start, a run of at least three
rule characters followed by whitespace up to the end of a line is
removed (the terminating newline itself is not consumed). -/
def hrSubF : Nat → Bool → List Char → List Char
  | 0, _, s => s
  | _ + 1, _, [] => []
  | f + 1, bol, c :: cs =>
    if bol && isHrChar c then
      let run := (c :: cs).takeWhile isHrChar
      if run.length < 3 then c :: hrSubF f false cs
      else
        let afterRun := (c :: cs).drop run.length
        let w := afterRun.takeWhile isPySpace
        let afterW := afterRun.drop w.length
        if afterW.isEmpty then []
        else
          match lastNlSplit w with
          | some (before, after) =>
            hrSubF f (match before.getLast? with
              | some l => l == '\n'
              | none => false) ('\n' :: (after ++ afterW))
          | none => c :: hrSubF f false cs
    else c :: hrSubF f (c == '\n') cs

/-- The colored-font pass: `<font...>text</font>` is unwrapped to its
inner text. -/
def fontSubF : Nat → List Char → List Char
  | 0, s => s
  | _ + 1, [] => []
  | f + 1, c :: cs =>
    if lstarts ['<', 'f', 'o', 'n', 't'] (c :: cs) then
      let afterOpen := (c :: cs).drop 5
      let attrs := afterOpen.takeWhile (fun x => !(x == '>'))
      match afterOpen.drop attrs.length with
      | '>' :: cs2 =>
        match seekClose ['<', '/', 'f', 'o', 'n', 't', '>'] cs2 with
        | some (content, rest) => content ++ fontSubF f rest
        | none => c :: fontSubF f cs
      | _ => c :: fontSubF f cs
    else c :: fontSubF f cs

/-- The generic tag pass: any `<...>` with non-empty tag text is
removed. -/
def tagsSubF : Nat → List Char → List Char
  | 0, s => s
  | _ + 1, [] => []
  | f + 1, c :: cs =>
    if c == '<' then
      let run := cs.takeWhile (fun x => !(x == '>'))
      match run, cs.drop run.length with
      | _ :: _, '>' :: rest => tagsSubF f rest
      | _, _ => c :: tagsSubF f cs
    else c :: tagsSubF f cs

/-- The blank-line pass: a run of three or more newlines becomes exactly
two. -/
def collapseF : Nat → List Char → List Char
  | 0, s => s
  | _ + 1, [] => []
  | f + 1, c :: cs =>
    if lstarts ['\n', '\n', '\n'] (c :: cs) then
      let run := (c :: cs).takeWhile (fun x => x == '\n')
      '\n' :: '\n' :: collapseF f ((c :: cs).drop run.length)
    else c :: collapseF f cs

/-- Right trim. -/
def rtrim (l : List Char) : List Char := (l.reverse.dropWhile isPySpace).reverse

/-- Python `str.strip()` over the modelled whitespace class. -/
def pyStrip (l : List Char) : List Char := rtrim (l.dropWhile isPySpace)

/-- The full pass sequence of strip_markdown, in source order. -/
def stripPasses (l0 : List Char) : List Char :=
  let l1 := pairSubF ['*', '*'] ['*', '*'] l0.length l0
  let l2 := pairSubF ['_', '_'] ['_', '_'] l1.length l1
  let l3 := pairSubF ['*'] ['*'] l2.length l2
  let l4 := pairSubF ['_'] ['_'] l3.length l3
  let l5 := pairSubF ['~', '~'] ['~', '~'] l4.length l4
  let l6 := linkSubF l5.length l5
  let l7 := imageSubF l6.length l6
  let l8 := pairSubF [backquote] [backquote] l7.length l7
  let l9 := quoteSubF l8.length true l8
  let l10 := headSubF l9.length true l9
  let l11 := hrSubF l10.length true l10
  let l12 := fontSubF l11.length l11
  let l13 := tagsSubF l12.length l12
  let l14 := collapseF l13.length l13
  pyStrip l14

/-- strip_markdown (formatters.py lines 43-88). -/
def strip_markdown (s : String) : String := String.mk (stripPasses s.data)

/-! ## Helper lemmas -/

set_option maxRecDepth 40000

theorem categorizeLists_eq (l : List Item) :
    categorizeLists l =
      (l.filter (fun it => decide (classifyCat it = Cat.tech)),
       l.filter (fun it => decide (classifyCat it = Cat.game)),
       l.filter (fun it => decide (classifyCat it = Cat.hw))) := by
  induction l with
  | nil => rfl
  | cons it rest ih =>
    simp only [categorizeLists, ih, List.filter_cons]
    cases h : classifyCat it <;> simp [h]

theorem classify_filter_length (l : List Item) :
    (l.filter (fun it => decide (classifyCat it = Cat.tech))).length +
      (l.filter (fun it => decide (classifyCat it = Cat.game))).length +
      (l.filter (fun it => decide (classifyCat it = Cat.hw))).length = l.length := by
  induction l with
  | nil => rfl
  | cons it rest ih =>
    cases h : classifyCat it <;> simp [List.filter_cons, h] <;> omega

theorem process_news_item_cases (p : AIProc) (it : Item) :
    process_news_item p it = it ∨
      ∃ t s g, process_news_item p it = applyEnrich it t s g := by
  unfold process_news_item
  cases p.client with
  | none => exact Or.inl rfl
  | some c =>
    by_cases hp : p.enabled
    · simp only [hp, if_true]
      rcases c.genTitle _ _ _ with _ | t
      · exact Or.inl rfl
      · rcases c.genSummary _ _ _ with _ | s
        · exact Or.inl rfl
        · rcases c.genTag _ _ with _ | g
          · exact Or.inl rfl
          · exact Or.inr ⟨t, s, g, rfl⟩
    · simp [hp]

/-! ## Claim C5 -/

/-- C5: categorize_news assigns every item to exactly one of the three
fixed buckets — the bucket lists are precisely the stable filters of the
input by the priority classification tech → gaming → hardware with tech
as default (so order within a bucket is input order and no item is
dropped or duplicated, the three bucket sizes summing to the input
length) — and a text containing both "AI" and "Steam" lands in the tech
bucket. -/
theorem categorize_total_exclusive_ordered (l : List Item) :
    categorize_news l =
      [("科技AI", l.filter (fun it => decide (classifyCat it = Cat.tech))),
       ("游戏娱乐", l.filter (fun it => decide (classifyCat it = Cat.game))),
       ("硬件数码", l.filter (fun it => decide (classifyCat it = Cat.hw)))] ∧
    (l.filter (fun it => decide (classifyCat it = Cat.tech))).length +
      (l.filter (fun it => decide (classifyCat it = Cat.game))).length +
      (l.filter (fun it => decide (classifyCat it = Cat.hw))).length = l.length ∧
    (hasSub (matchText [("title", "AI登陆Steam平台")]) "AI" = true ∧
     hasSub (matchText [("title", "AI登陆Steam平台")]) "Steam" = true ∧
     classifyCat [("title", "AI登陆Steam平台")] = Cat.tech) := by
  refine ⟨?_, classify_filter_length l, by decide, by decide, by decide⟩
  simp [categorize_news, categorizeLists_eq l]

/-! ## Claim C4 -/

/-- C4: process_news_list returns a list of the same length in the same
order; each output position holds either the corresponding input item
unchanged or that item extended with all three ai fields and the
original title — never a partial enrichment.  (The embedding is pure, so
input items are never mutated.) -/
theorem enrich_batch_shape (p : AIProc) (l : List Item) :
    (process_news_list p l).length = l.length ∧
    ∀ i : Nat,
      (process_news_list p l)[i]? = l[i]? ∨
      ∃ it t s g, l[i]? = some it ∧
        (process_news_list p l)[i]? = some (applyEnrich it t s g) := by
  unfold process_news_list
  by_cases hp : p.enabled
  · simp only [hp, if_true]
    refine ⟨List.length_map _ _, fun i => ?_⟩
    rw [List.getElem?_map]
    cases h : l[i]? with
    | none => exact Or.inl rfl
    | some it =>
      rcases process_news_item_cases p it with he | ⟨t, s, g, he⟩
      · exact Or.inl (by simp [he])
      · exact Or.inr ⟨it, t, s, g, rfl, by simp [he]⟩
  · simp [hp]

/-! ## Claim C3 -/

theorem data_append (a b : String) : (a ++ b).data = a.data ++ b.data := rfl

theorem head_app (l r : List Char) (c : Char) (h : l.head? = some c) :
    (l ++ r).head? = some c := by
  cases l with
  | nil => simp at h
  | cons a as => simpa using h

theorem generate_basic_head (d : CatDict) :
    (generate_basic_format d).data.head? = some '📺' := by
  unfold generate_basic_format
  rw [data_append, data_append, data_append]
  exact head_app _ _ _ (head_app _ _ _ (head_app _ _ _ (by decide)))

theorem combine_head (b : String) (s sb : Option String) (c : Char)
    (h : b.data.head? = some c) :
    (combine_all_formats b s sb).data.head? = some c := by
  unfold combine_all_formats
  rw [data_append, data_append, data_append]
  exact head_app _ _ _ (head_app _ _ _ (head_app _ _ _ h))

/-- C3: format_for_video returns the fixed sentinel exactly when the
categorized mapping itself is empty.  In particular a mapping whose
bucket lists are all empty — such as categorize_news of an empty list,
which always carries its three fixed keys — does NOT produce the
sentinel, refuting the claim as stated. -/
theorem format_sentinel_iff (p : AIProc) (d : CatDict) :
    format_for_video p d = "暂无新闻内容" ↔ d = [] := by
  cases d with
  | nil => simp [format_for_video]
  | cons x xs =>
    simp only [format_for_video]
    constructor
    · intro h
      have h2 : (combine_all_formats (generate_basic_format (x :: xs))
          (if p.generateScript then some (generate_video_script (x :: xs)) else none)
          (if p.generateStoryboard then some (generate_storyboard (x :: xs)) else none)).data.head? =
          some '📺' := combine_head _ _ _ _ (generate_basic_head _)
      rw [h] at h2
      exact absurd h2 (by decide)
    · intro h
      exact absurd h (by simp)

/-- C3 counterexample: for categorize_news applied to the empty item
list (a mapping whose three bucket lists are all empty), format_for_video
does not return the sentinel. -/
theorem format_sentinel_counterexample :
    format_for_video
      { enabled := true, client := none, summaryLength := 150, titleLength := 30,
        videoFormat := true, generateScript := true, generateStoryboard := true }
      (categorize_news []) ≠ "暂无新闻内容" := by decide

/-! ## Claim C1 -/

theorem dget_cn_none (l : List Item) (k : String) (h1 : ¬ k = "科技AI")
    (h2 : ¬ k = "游戏娱乐") (h3 : ¬ k = "硬件数码") :
    dget (categorize_news l) k = none := by
  simp [categorize_news, dget, h1, h2, h3]

theorem gb_const (m : List Item) :
    generate_basic_format (categorize_news m) = generate_basic_format (categorize_news []) := by
  unfold generate_basic_format basicBucket
  rw [dget_cn_none m "科技AI类" (by decide) (by decide) (by decide),
    dget_cn_none m "游戏娱乐类" (by decide) (by decide) (by decide),
    dget_cn_none m "硬件数码类" (by decide) (by decide) (by decide),
    dget_cn_none ([] : List Item) "科技AI类" (by decide) (by decide) (by decide),
    dget_cn_none ([] : List Item) "游戏娱乐类" (by decide) (by decide) (by decide),
    dget_cn_none ([] : List Item) "硬件数码类" (by decide) (by decide) (by decide)]

theorem gs_const (m : List Item) :
    generate_video_script (categorize_news m) = generate_video_script (categorize_news []) := by
  unfold generate_video_script scriptBucket
  rw [dget_cn_none m "科技AI类" (by decide) (by decide) (by decide),
    dget_cn_none m "游戏娱乐类" (by decide) (by decide) (by decide),
    dget_cn_none m "硬件数码类" (by decide) (by decide) (by decide),
    dget_cn_none ([] : List Item) "科技AI类" (by decide) (by decide) (by decide),
    dget_cn_none ([] : List Item) "游戏娱乐类" (by decide) (by decide) (by decide),
    dget_cn_none ([] : List Item) "硬件数码类" (by decide) (by decide) (by decide)]

theorem sb_const (m : List Item) :
    generate_storyboard (categorize_news m) = generate_storyboard (categorize_news []) := by
  unfold generate_storyboard sbLoop sbStep
  rw [dget_cn_none m "科技AI类" (by decide) (by decide) (by decide),
    dget_cn_none m "游戏娱乐类" (by decide) (by decide) (by decide),
    dget_cn_none m "硬件数码类" (by decide) (by decide) (by decide),
    dget_cn_none ([] : List Item) "科技AI类" (by decide) (by decide) (by decide),
    dget_cn_none ([] : List Item) "游戏娱乐类" (by decide) (by decide) (by decide),
    dget_cn_none ([] : List Item) "硬件数码类" (by decide) (by decide) (by decide)]

theorem format_cn (p : AIProc) (m : List Item) :
    format_for_video p (categorize_news m) =
      combine_all_formats (generate_basic_format (categorize_news m))
        (if p.generateScript then some (generate_video_script (categorize_news m)) else none)
        (if p.generateStoryboard then some (generate_storyboard (categorize_news m)) else none) := rfl

/-- C1: the claim fails on the code.  categorize_news produces the keys
科技AI / 游戏娱乐 / 硬件数码 while the renderers look up the keys 科技AI类 /
游戏娱乐类 / 硬件数码类, so no bucket is ever rendered: the rendered
document of categorize_news output is one fixed boilerplate string
independent of the items, and for a concrete one-item input neither the
item title, nor any enumerated block, nor any bucket header occurs in
the output. -/
theorem render_of_categorize_ignores_items (p : AIProc) (l : List Item) :
    format_for_video p (categorize_news l) = format_for_video p (categorize_news []) ∧
    (hasSub (format_for_video
        { enabled := true, client := none, summaryLength := 150, titleLength := 30,
          videoFormat := true, generateScript := true, generateStoryboard := true }
        (categorize_news [[("title", "甲乙丙丁")]])) "甲乙丙丁" = false ∧
     hasSub (format_for_video
        { enabled := true, client := none, summaryLength := 150, titleLength := 30,
          videoFormat := true, generateScript := true, generateStoryboard := true }
        (categorize_news [[("title", "甲乙丙丁")]])) "1. " = false ∧
     hasSub (format_for_video
        { enabled := true, client := none, summaryLength := 150, titleLength := 30,
          videoFormat := true, generateScript := true, generateStoryboard := true }
        (categorize_news [[("title", "甲乙丙丁")]])) "🔸" = false) := by
  refine ⟨?_, by decide, by decide, by decide⟩
  rw [format_cn p l, format_cn p [], gb_const l, gs_const l, sb_const l]

/-! ## Claim C8 -/

/-- The time contributed by one bucket, stated from the spec: zero when
the bucket is absent or empty, otherwise min(30, item_count * 8). -/
def bucketContrib (d : CatDict) (cat : String) : Nat :=
  match dget d cat with
  | some l => if l.isEmpty then 0 else min 30 (l.length * 8)
  | none => 0

theorem sbStep_snd (d : CatDict) (idx : Nat) (cat : String) (acc : String × Nat) :
    (sbStep d idx cat acc).2 = acc.2 + bucketContrib d cat := by
  unfold sbStep bucketContrib
  cases dget d cat with
  | none => simp
  | some l => by_cases h : l.isEmpty <;> simp [h]

/-- The storyboard example of the claim: non-empty buckets of 1, 5 and
10 items. -/
def sbExample : CatDict :=
  [("科技AI类", [[("title", "甲")]]),
   ("游戏娱乐类", List.replicate 5 [("title", "乙")]),
   ("硬件数码类", List.replicate 10 [("title", "丙")])]

/-- A storyboard input whose first and last buckets are empty. -/
def sbExampleEmpty : CatDict :=
  [("科技AI类", []), ("游戏娱乐类", [[("title", "乙")]]), ("硬件数码类", [])]

/-- C8: the reported cumulative storyboard duration is the 5-second
opening plus, for each of the three buckets in fixed order, zero seconds
when the bucket is absent or empty and min(30, count * 8) seconds
otherwise, plus the 5-second closing; on buckets of 1, 5 and 10 items
the shots last 8, 30 and 30 seconds, run 0:05-0:13, 0:13-0:43 and
0:43-1:13, the closing runs 1:13-1:18 and the reported total is 78
seconds; an empty bucket produces no shot and consumes no time. -/
theorem storyboard_timing (d : CatDict) :
    sbEndEnd d =
      5 + bucketContrib d "科技AI类" + bucketContrib d "游戏娱乐类" +
        bucketContrib d "硬件数码类" + 5 ∧
    (bucketContrib sbExample "科技AI类" = 8 ∧
     bucketContrib sbExample "游戏娱乐类" = 30 ∧
     bucketContrib sbExample "硬件数码类" = 30 ∧
     sbEndEnd sbExample = 78 ∧
     hasSub (generate_storyboard sbExample) "【镜头2】科技AI类 (0:05-0:13)" = true ∧
     hasSub (generate_storyboard sbExample) "【镜头3】游戏娱乐类 (0:13-0:43)" = true ∧
     hasSub (generate_storyboard sbExample) "【镜头4】硬件数码类 (0:43-1:13)" = true ∧
     hasSub (generate_storyboard sbExample) "【镜头5】结尾 (1:13-1:18)" = true ∧
     hasSub (generate_storyboard sbExample) "总时长：约1分18秒" = true) ∧
    (hasSub (generate_storyboard sbExampleEmpty) "【镜头3】游戏娱乐类 (0:05-0:13)" = true ∧
     hasSub (generate_storyboard sbExampleEmpty) "科技AI类 (" = false ∧
     hasSub (generate_storyboard sbExampleEmpty) "硬件数码类 (" = false ∧
     sbEndEnd sbExampleEmpty = 18) := by
  refine ⟨?_, by decide, by decide⟩
  unfold sbEndEnd sbLoop
  rw [sbStep_snd, sbStep_snd, sbStep_snd]

/-! ## Payload helper lemmas -/

theorem prepare_new_titles_eq (stats : List Stat) (fi : Option (List String))
    (nt : NewTitles) (idn : Option (List (String × String))) (mode : String)
    (rt : Nat) (fp : Option (String → Bool)) (ai : Option AIProc) :
    (prepare_report_data stats fi nt idn mode rt fp ai).new_titles =
      processedNewTitlesOf nt idn mode fp rt := by
  unfold prepare_report_data
  cases ai with
  | none => rfl
  | some p =>
    by_cases hp : p.enabled
    · simp only [hp, if_true]
      by_cases hn : (collectNews (processedStatsOf stats)
          (processedNewTitlesOf nt idn mode fp rt)).isEmpty
      · simp [hn]
      · by_cases hv : p.videoFormat <;> simp [hn, hv]
    · simp [hp]

theorem prepare_total_eq (stats : List Stat) (fi : Option (List String))
    (nt : NewTitles) (idn : Option (List (String × String))) (mode : String)
    (rt : Nat) (fp : Option (String → Bool)) (ai : Option AIProc) :
    (prepare_report_data stats fi nt idn mode rt fp ai).total_new_count =
      ((processedNewTitlesOf nt idn mode fp rt).map (fun g => g.titles.length)).sum := by
  unfold prepare_report_data
  cases ai with
  | none => rfl
  | some p =>
    by_cases hp : p.enabled
    · simp only [hp, if_true]
      by_cases hn : (collectNews (processedStatsOf stats)
          (processedNewTitlesOf nt idn mode fp rt)).isEmpty
      · simp [hn]
      · by_cases hv : p.videoFormat <;> simp [hn, hv]
    · simp [hp]

/-! ## Claim C6 -/

/-- C6: in incremental mode the payload always carries an empty
new_titles list and a zero total_new_count, whatever the inputs. -/
theorem incremental_suppresses_new_titles (stats : List Stat)
    (fi : Option (List String)) (nt : NewTitles)
    (idn : Option (List (String × String))) (rt : Nat)
    (fp : Option (String → Bool)) (ai : Option AIProc) :
    (prepare_report_data stats fi nt idn "incremental" rt fp ai).new_titles = [] ∧
    (prepare_report_data stats fi nt idn "incremental" rt fp ai).total_new_count = 0 := by
  have h : processedNewTitlesOf nt idn "incremental" fp rt = [] := by
    simp [processedNewTitlesOf]
  refine ⟨?_, ?_⟩
  · rw [prepare_new_titles_eq, h]
  · rw [prepare_total_eq, h]
    rfl

/-! ## Claim C7 -/

/-- C7 counterexample: in daily mode with no filter predicate, an input
source group carrying zero titles does not appear in the payload at all
(the assembled new_titles list is empty), although the claim promises
every source group of the input appears; moreover, when no id_to_name
mapping is supplied, even a group with a title vanishes. -/
theorem new_titles_passthrough_counterexample :
    (prepare_report_data [] none [("a", [])] (some [("a", "A")]) "daily" 3 none
      none).new_titles = [] ∧
    (prepare_report_data [] none
      [("a", [("标题一", { url := "u", mobileUrl := "", ranks := [] })])]
      none "daily" 3 none none).new_titles = [] := by
  refine ⟨by decide, by decide⟩

/-- The check that one input source group survives into the payload:
some assembled group has the same source id, exactly as many titles, and
contains every input title of the group. -/
def groupOk (pnl : List SourceGroup) (sid : String) (td : List (String × NewInfo)) : Bool :=
  pnl.any (fun gr => gr.source_id == sid && gr.titles.length == td.length &&
    td.all (fun pr => gr.titles.any (fun pt => pt.title == pr.1)))

theorem processedNT_nofilter (nt : NewTitles) (m : List (String × String))
    (mode : String) (rt : Nat) (hmode : ¬ mode = "incremental") (hm : ¬ m = []) :
    processedNewTitlesOf nt (some m) mode none rt =
      nt.filterMap (fun pr =>
        if (pr.2.map (fun t => mkNewProcTitle t.1 ((dget m pr.1).getD pr.1) t.2 rt)).isEmpty then none
        else some { source_id := pr.1, source_name := (dget m pr.1).getD pr.1,
                    titles := pr.2.map (fun t => mkNewProcTitle t.1 ((dget m pr.1).getD pr.1) t.2 rt) }) := by
  unfold processedNewTitlesOf
  rw [if_neg hmode]
  have hmE : m.isEmpty = false := by simpa [List.isEmpty_iff] using hm
  cases nt with
  | nil => simp [hmE]
  | cons a tl => simp [hmE]

/-- C7 amended: in every non-incremental mode, with no filter predicate
and a non-empty id_to_name mapping supplied, every input source group
that carries at least one title appears in the payload with all of its
titles (groups with zero titles are dropped), and total_new_count is the
sum of the assembled group sizes. -/
theorem new_titles_passthrough_amended (stats : List Stat)
    (fi : Option (List String)) (nt : NewTitles) (m : List (String × String))
    (mode : String) (rt : Nat) (ai : Option AIProc)
    (hmode : ¬ mode = "incremental") (hm : ¬ m = []) :
    nt.all (fun pr => pr.2.isEmpty ||
      groupOk (prepare_report_data stats fi nt (some m) mode rt none ai).new_titles
        pr.1 pr.2) = true ∧
    (prepare_report_data stats fi nt (some m) mode rt none ai).total_new_count =
      ((prepare_report_data stats fi nt (some m) mode rt none ai).new_titles.map
        (fun g => g.titles.length)).sum := by
  refine ⟨?_, by rw [prepare_total_eq, prepare_new_titles_eq]⟩
  rw [List.all_eq_true]
  rintro ⟨sid, td⟩ hmem
  by_cases he : td.isEmpty
  · simp [he]
  · rw [prepare_new_titles_eq, processedNT_nofilter nt m mode rt hmode hm]
    simp only [he, Bool.false_or]
    unfold groupOk
    rw [List.any_eq_true]
    refine ⟨{ source_id := sid, source_name := (dget m sid).getD sid,
              titles := td.map (fun t => mkNewProcTitle t.1 ((dget m sid).getD sid) t.2 rt) },
            ?_, ?_⟩
    · apply List.mem_filterMap.mpr
      refine ⟨(sid, td), hmem, ?_⟩
      have htd : ¬ td = [] := by simpa [List.isEmpty_iff] using he
      simp [List.isEmpty_iff, htd]
    · simp only [beq_self_eq_true, List.length_map, Bool.true_and]
      rw [List.all_eq_true]
      intro pr2 hpr2
      rw [List.any_eq_true]
      exact ⟨mkNewProcTitle pr2.1 ((dget m sid).getD sid) pr2.2 rt,
        List.mem_map_of_mem _ hpr2, by simp [mkNewProcTitle]⟩

/-- C7 witness: the amended theorem applied to one concrete source group
with one title in daily mode. -/
theorem new_titles_passthrough_witness :
    [("a", [("标题一", ({ url := "u", mobileUrl := "", ranks := [] } : NewInfo))])].all
      (fun pr => pr.2.isEmpty ||
        groupOk (prepare_report_data [] none
          [("a", [("标题一", { url := "u", mobileUrl := "", ranks := [] })])]
          (some [("a", "甲源")]) "daily" 3 none none).new_titles pr.1 pr.2) = true ∧
    (prepare_report_data [] none
      [("a", [("标题一", { url := "u", mobileUrl := "", ranks := [] })])]
      (some [("a", "甲源")]) "daily" 3 none none).total_new_count =
      ((prepare_report_data [] none
        [("a", [("标题一", { url := "u", mobileUrl := "", ranks := [] })])]
        (some [("a", "甲源")]) "daily" 3 none none).new_titles.map
          (fun g => g.titles.length)).sum :=
  new_titles_passthrough_amended [] none
    [("a", [("标题一", { url := "u", mobileUrl := "", ranks := [] })])]
    [("a", "甲源")] "daily" 3 none (by decide) (by decide)

/-! ## Claim C2 -/

/-- A concrete input statistics entry used by the C2 counterexample. -/
def c2Stat : Stat :=
  { word := "AI", count := 1, percentage := 0,
    titles := [{ title := "甲标题", source_name := "源", time_display := "",
                 count := 2, ranks := [1], rank_threshold := 3, url := "",
                 mobileUrl := "", is_new := false }] }

/-- A concrete always-succeeding enrichment client. -/
def c2Client : Client :=
  { genTitle := fun _ _ _ => some "题", genSummary := fun _ _ _ => some "摘",
    genTag := fun _ _ => some "签" }

/-- A concrete enabled processor with a configurable video-format flag. -/
def c2Proc (vf : Bool) : AIProc :=
  { enabled := true, client := some c2Client, summaryLength := 150,
    titleLength := 30, videoFormat := vf, generateScript := true,
    generateStoryboard := true }

/-- C2 counterexample: with enrichment configured and enabled and one
news item collected, but the video-format option off, the payload
carries neither ai_processed nor ai_categories; flipping only the
video-format flag to on yields ai_processed = true. -/
theorem ai_payload_counterexample :
    (c2Proc false).enabled = true ∧
    collectNews (processedStatsOf [c2Stat])
      (processedNewTitlesOf [] none "daily" none 3) ≠ [] ∧
    (prepare_report_data [c2Stat] none [] none "daily" 3 none
      (some (c2Proc false))).ai_processed = none ∧
    (prepare_report_data [c2Stat] none [] none "daily" 3 none
      (some (c2Proc false))).ai_categories = none ∧
    (prepare_report_data [c2Stat] none [] none "daily" 3 none
      (some (c2Proc true))).ai_processed = some true := by
  refine ⟨rfl, by decide, by decide, by decide, by decide⟩

/-- C2 amended: whenever enrichment is configured and enabled, at least
one news item is collected from the filtered stats and new-titles
groups, AND the video-format option is enabled, the payload carries
ai_processed = true together with the categorized grouping of the
enriched items. -/
theorem ai_payload_amended (stats : List Stat) (fi : Option (List String))
    (nt : NewTitles) (idn : Option (List (String × String))) (mode : String)
    (rt : Nat) (fp : Option (String → Bool)) (p : AIProc)
    (hp : p.enabled = true) (hv : p.videoFormat = true)
    (hne : collectNews (processedStatsOf stats)
      (processedNewTitlesOf nt idn mode fp rt) ≠ []) :
    (prepare_report_data stats fi nt idn mode rt fp (some p)).ai_processed =
      some true ∧
    (prepare_report_data stats fi nt idn mode rt fp (some p)).ai_categories =
      some (categorize_news (process_news_list p
        (collectNews (processedStatsOf stats)
          (processedNewTitlesOf nt idn mode fp rt)))) := by
  have hisE : (collectNews (processedStatsOf stats)
      (processedNewTitlesOf nt idn mode fp rt)).isEmpty = false := by
    simpa [List.isEmpty_iff] using hne
  unfold prepare_report_data
  simp [hp, hisE, hv]

/-- C2 witness: the amended theorem applied to the concrete enabled
processor with the video-format flag on. -/
theorem ai_payload_witness :
    (prepare_report_data [c2Stat] none [] none "daily" 3 none
      (some (c2Proc true))).ai_processed = some true ∧
    (prepare_report_data [c2Stat] none [] none "daily" 3 none
      (some (c2Proc true))).ai_categories =
      some (categorize_news (process_news_list (c2Proc true)
        (collectNews (processedStatsOf [c2Stat])
          (processedNewTitlesOf [] none "daily" none 3)))) :=
  ai_payload_amended [c2Stat] none [] none "daily" 3 none (c2Proc true)
    rfl rfl (by decide)

/-! ## Claim C9 -/

/-- C9: the link rule of strip_markdown runs before the image rule, so
a plain link [x](u) becomes "x u" as claimed, but an image construct
![x](u) is consumed by the link rule first and becomes "!x u" — the alt
text with a leading bang and the url preserved — instead of the alt text
alone that the claim (and the source comment) promise. -/
theorem strip_link_image_behavior :
    strip_markdown "[x](http://u)" = "x http://u" ∧
    strip_markdown "![alt](http://img)" = "!alt http://img" ∧
    strip_markdown "![alt](http://img)" ≠ "alt" := by
  refine ⟨by decide, by decide, by decide⟩

/-! ## Claim C10 -/

/-- C10 counterexample: strip_markdown is not idempotent.  On
"<b># hi" the first pass removes the tag and uncovers a line-leading
heading marker, which only the second pass strips. -/
theorem strip_idempotent_counterexample :
    strip_markdown (strip_markdown "<b># hi") ≠ strip_markdown "<b># hi" ∧
    strip_markdown "<b># hi" = "# hi" ∧
    strip_markdown (strip_markdown "<b># hi") = "hi" := by
  refine ⟨by decide, by decide, by decide⟩

theorem charFree_uncons (c x : Char) (l : List Char)
    (h : charFree c (x :: l) = true) :
    (x == c) = false ∧ charFree c l = true := by
  unfold charFree at h ⊢
  rw [List.all_cons, Bool.and_eq_true] at h
  refine ⟨?_, h.2⟩
  have h1 := h.1
  cases hxc : x == c
  · rfl
  · rw [hxc] at h1
    simp at h1

theorem beq_symm_false (a b : Char) (h : (a == b) = false) : (b == a) = false := by
  simp only [beq_eq_false_iff_ne] at h ⊢
  exact fun e => h e.symm

theorem hasSubL_uncons (c : Char) (cs pat : List Char)
    (h : hasSubL (c :: cs) pat = false) :
    lstarts pat (c :: cs) = false ∧ hasSubL cs pat = false := by
  unfold hasSubL at h
  exact Bool.or_eq_false_iff.mp h

theorem pairSubF_id (hd : Char) (tl cl : List Char) (l : List Char) :
    ∀ f : Nat, l.length ≤ f → charFree hd l = true →
      pairSubF (hd :: tl) cl f l = l := by
  induction l with
  | nil => intro f _ _; cases f <;> rfl
  | cons c cs ih =>
    intro f hf hc
    obtain ⟨hx, hcs⟩ := charFree_uncons hd c cs hc
    cases f with
    | zero => simp at hf
    | succ f2 =>
      have hls : lstarts (hd :: tl) (c :: cs) = false := by
        unfold lstarts
        rw [beq_symm_false c hd hx, Bool.false_and]
      unfold pairSubF
      rw [hls, if_neg (by simp)]
      exact congrArg (c :: ·) (ih f2 (by simpa using hf) hcs)

theorem linkSubF_id (l : List Char) :
    ∀ f : Nat, l.length ≤ f → charFree '[' l = true → linkSubF f l = l := by
  induction l with
  | nil => intro f _ _; cases f <;> rfl
  | cons c cs ih =>
    intro f hf hc
    obtain ⟨hx, hcs⟩ := charFree_uncons '[' c cs hc
    cases f with
    | zero => simp at hf
    | succ f2 =>
      unfold linkSubF
      rw [hx, if_neg (by simp)]
      exact congrArg (c :: ·) (ih f2 (by simpa using hf) hcs)

theorem imageSubF_id (l : List Char) :
    ∀ f : Nat, l.length ≤ f → charFree '[' l = true → imageSubF f l = l := by
  induction l with
  | nil => intro f _ _; cases f <;> rfl
  | cons c cs ih =>
    intro f hf hc
    obtain ⟨_, hcs⟩ := charFree_uncons '[' c cs hc
    cases f with
    | zero => simp at hf
    | succ f2 =>
      have hls : lstarts ['['] cs = false := by
        cases cs with
        | nil => rfl
        | cons d ds =>
          obtain ⟨hd, _⟩ := charFree_uncons '[' d ds hcs
          unfold lstarts
          rw [beq_symm_false d '[' hd, Bool.false_and]
      unfold imageSubF
      rw [hls, Bool.and_false, if_neg (by simp)]
      exact congrArg (c :: ·) (ih f2 (by simpa using hf) hcs)

theorem quoteSubF_id (l : List Char) :
    ∀ (f : Nat) (bol : Bool), l.length ≤ f → charFree '>' l = true →
      quoteSubF f bol l = l := by
  induction l with
  | nil => intro f bol _ _; cases f <;> rfl
  | cons c cs ih =>
    intro f bol hf hc
    obtain ⟨hx, hcs⟩ := charFree_uncons '>' c cs hc
    cases f with
    | zero => simp at hf
    | succ f2 =>
      unfold quoteSubF
      rw [hx, Bool.and_false, if_neg (by simp)]
      exact congrArg (c :: ·) (ih f2 _ (by simpa using hf) hcs)

theorem headSubF_id (l : List Char) :
    ∀ (f : Nat) (bol : Bool), l.length ≤ f → charFree '#' l = true →
      headSubF f bol l = l := by
  induction l with
  | nil => intro f bol _ _; cases f <;> rfl
  | cons c cs ih =>
    intro f bol hf hc
    obtain ⟨hx, hcs⟩ := charFree_uncons '#' c cs hc
    cases f with
    | zero => simp at hf
    | succ f2 =>
      unfold headSubF
      rw [hx, Bool.and_false, if_neg (by simp)]
      exact congrArg (c :: ·) (ih f2 _ (by simpa using hf) hcs)

theorem fontSubF_id (l : List Char) :
    ∀ f : Nat, l.length ≤ f → charFree '<' l = true → fontSubF f l = l := by
  induction l with
  | nil => intro f _ _; cases f <;> rfl
  | cons c cs ih =>
    intro f hf hc
    obtain ⟨hx, hcs⟩ := charFree_uncons '<' c cs hc
    cases f with
    | zero => simp at hf
    | succ f2 =>
      have hls : lstarts ['<', 'f', 'o', 'n', 't'] (c :: cs) = false := by
        unfold lstarts
        rw [beq_symm_false c '<' hx, Bool.false_and]
      unfold fontSubF
      rw [hls, if_neg (by simp)]
      exact congrArg (c :: ·) (ih f2 (by simpa using hf) hcs)

theorem tagsSubF_id (l : List Char) :
    ∀ f : Nat, l.length ≤ f → charFree '<' l = true → tagsSubF f l = l := by
  induction l with
  | nil => intro f _ _; cases f <;> rfl
  | cons c cs ih =>
    intro f hf hc
    obtain ⟨hx, hcs⟩ := charFree_uncons '<' c cs hc
    cases f with
    | zero => simp at hf
    | succ f2 =>
      unfold tagsSubF
      rw [hx, if_neg (by simp)]
      exact congrArg (c :: ·) (ih f2 (by simpa using hf) hcs)

theorem collapseF_id (l : List Char) :
    ∀ f : Nat, l.length ≤ f → hasSubL l ['\n', '\n', '\n'] = false →
      collapseF f l = l := by
  induction l with
  | nil => intro f _ _; cases f <;> rfl
  | cons c cs ih =>
    intro f hf hc
    obtain ⟨hls, hcs⟩ := hasSubL_uncons c cs _ hc
    cases f with
    | zero => simp at hf
    | succ f2 =>
      unfold collapseF
      rw [hls, if_neg (by simp)]
      exact congrArg (c :: ·) (ih f2 (by simpa using hf) hcs)

theorem dash_take (n : Nat) : ∀ l : List Char, charFree '*' l = true →
    n ≤ (l.takeWhile isHrChar).length → lstarts (List.replicate n '-') l = true := by
  induction n with
  | zero => intro l _ _; rfl
  | succ n ih =>
    intro l hstar hlen
    cases l with
    | nil => simp [List.takeWhile] at hlen
    | cons c cs =>
      obtain ⟨hcstar, hcs⟩ := charFree_uncons '*' c cs hstar
      by_cases hp : isHrChar c = true
      · have hcd : c = '-' := by
          unfold isHrChar at hp
          rcases Bool.or_eq_true_iff.mp hp with h1 | h2
          · simpa using h1
          · rw [h2] at hcstar; cases hcstar
        rw [List.takeWhile_cons_of_pos hp, List.length_cons, Nat.succ_le_succ_iff] at hlen
        rw [List.replicate_succ]
        unfold lstarts
        rw [hcd, show (('-' : Char) == '-') = true from rfl, Bool.true_and]
        exact ih cs hcs hlen
      · rw [List.takeWhile_cons_of_neg (by simpa using hp)] at hlen
        simp at hlen

theorem hrSubF_id (l : List Char) :
    ∀ (f : Nat) (bol : Bool), l.length ≤ f → charFree '*' l = true →
      hasSubL l ['-', '-', '-'] = false → hrSubF f bol l = l := by
  induction l with
  | nil => intro f bol _ _ _; cases f <;> rfl
  | cons c cs ih =>
    intro f bol hf hstar hdash
    obtain ⟨hcst, hcsst⟩ := charFree_uncons '*' c cs hstar
    obtain ⟨hls, hcsd⟩ := hasSubL_uncons c cs _ hdash
    cases f with
    | zero => simp at hf
    | succ f2 =>
      unfold hrSubF
      by_cases hb : (bol && isHrChar c) = true
      · rw [if_pos hb]
        have hlt : ((c :: cs).takeWhile isHrChar).length < 3 := by
          by_contra hge
          push_neg at hge
          have hds := dash_take 3 (c :: cs) hstar hge
          rw [show List.replicate 3 '-' = ['-', '-', '-'] from rfl] at hds
          rw [hds] at hls
          cases hls
        rw [if_pos hlt]
        exact congrArg (c :: ·) (ih f2 false (by simpa using hf) hcsst hcsd)
      · rw [if_neg hb]
        exact congrArg (c :: ·) (ih f2 _ (by simpa using hf) hcsst hcsd)

/-- A text is markup-free when it contains none of the pass trigger
characters, no three consecutive dashes, no three consecutive newlines,
and is already trimmed: every substitution pass of strip_markdown is
then the identity. -/
def markupFree (s : String) : Bool :=
  charFree '*' s.data && charFree '_' s.data && charFree '~' s.data &&
    charFree backquote s.data && charFree '[' s.data && charFree '<' s.data &&
    charFree '>' s.data && charFree '#' s.data &&
    !hasSubL s.data ['-', '-', '-'] && !hasSubL s.data ['\n', '\n', '\n'] &&
    (pyStrip s.data == s.data)

theorem strip_markdown_noop (s : String) (h : markupFree s = true) :
    strip_markdown s = s := by
  unfold markupFree at h
  simp only [Bool.and_eq_true, Bool.not_eq_true', and_assoc] at h
  obtain ⟨hstar, hund, htil, hbq, hbr, hlt, hgt, hhash, hdash, hnl, hstrip⟩ := h
  have hstrip2 : pyStrip s.data = s.data := by simpa using hstrip
  simp only [strip_markdown, stripPasses]
  rw [pairSubF_id '*' ['*'] ['*', '*'] s.data s.data.length le_rfl hstar,
    pairSubF_id '_' ['_'] ['_', '_'] s.data s.data.length le_rfl hund,
    pairSubF_id '*' [] ['*'] s.data s.data.length le_rfl hstar,
    pairSubF_id '_' [] ['_'] s.data s.data.length le_rfl hund,
    pairSubF_id '~' ['~'] ['~', '~'] s.data s.data.length le_rfl htil,
    linkSubF_id s.data s.data.length le_rfl hbr,
    imageSubF_id s.data s.data.length le_rfl hbr,
    pairSubF_id backquote [] [backquote] s.data s.data.length le_rfl hbq,
    quoteSubF_id s.data s.data.length true le_rfl hgt,
    headSubF_id s.data s.data.length true le_rfl hhash,
    hrSubF_id s.data s.data.length true le_rfl hstar hdash,
    fontSubF_id s.data s.data.length le_rfl hlt,
    tagsSubF_id s.data s.data.length le_rfl hlt,
    collapseF_id s.data s.data.length le_rfl hnl,
    hstrip2]

/-- C10 amended: strip_markdown is not idempotent in general (see the
counterexample, where the first pass uncovers a heading marker), but a
second application is a no-op whenever the first output is markup-free:
free of the trigger characters of every pass, with no three consecutive
dashes or newlines, and already trimmed. -/
theorem strip_idempotent_amended (t : String)
    (h : markupFree (strip_markdown t) = true) :
    strip_markdown (strip_markdown t) = strip_markdown t :=
  strip_markdown_noop (strip_markdown t) h

/-- C10 witness: the amended theorem applied at a concrete input whose
first output is markup-free. -/
theorem strip_idempotent_witness :
    strip_markdown (strip_markdown "hello **world**") = strip_markdown "hello **world**" :=
  strip_idempotent_amended "hello **world**" (by decide)
